import Mathlib

/-!
Shallow embedding of `ConversationM.py`: a conversation-memory manager
(`ChatHistoryHandler`) and a structured-extraction pipeline (`DataMiner`).
The external completion service is modelled as an explicit parameter
(`String → Except String String` for summarization; an already-parsed
JSON object wrapped in `Except` for extraction), matching the Python
code's try/except boundaries.
-/

namespace ConversationM

/-- One chat message: `{"role": ..., "content": ..., "timestamp": ...}`
as built by `ChatHistoryHandler.record_message`. -/
structure Message where
  role : String
  content : String
  timestamp : String
  deriving DecidableEq, Repr

/-- Mutable state of a `ChatHistoryHandler` instance: `chat_log`,
`message_count` and `last_summary`. -/
structure HandlerState where
  chat_log : List Message
  message_count : Nat
  last_summary : String
  deriving DecidableEq, Repr

/-- `record_message(speaker, text)`: appends a new entry (timestamped with
the current wall clock, here the explicit `now` argument) and increments
`message_count`. -/
def record_message (now speaker text : String) (st : HandlerState) : HandlerState :=
  { st with
    chat_log := st.chat_log ++ [⟨speaker, text, now⟩]
    message_count := st.message_count + 1 }

/-- `keep_recent_turns(how_many_turns)`: computes `messages_to_keep =
how_many_turns * 2`; returns the whole log when it is no longer than
that, otherwise the Python slice `chat_log[-messages_to_keep:]`.
A Python slice `xs[-0:]` is `xs[0:]`, i.e. the whole list, so the
`messages_to_keep = 0` case on a non-empty log returns everything. -/
def keep_recent_turns (log : List Message) (how_many_turns : Nat) : List Message :=
  let messages_to_keep := how_many_turns * 2
  if log.length ≤ messages_to_keep then log
  else if messages_to_keep = 0 then log
  else log.drop (log.length - messages_to_keep)

/-- Scan of `fit_to_size`, over the log already reversed (newest first):
stop at the first message whose content would push `chars_used` past the
limit, otherwise take it and continue. -/
def fit_scan (character_limit : Nat) : Nat → List Message → List Message
  | _, [] => []
  | chars_used, msg :: rest =>
    if character_limit < chars_used + msg.content.length then []
    else msg :: fit_scan character_limit (chars_used + msg.content.length) rest

/-- `fit_to_size(character_limit)`: works backwards from the newest
message, inserting each kept message at the front, so the result is the
selected suffix in chronological order. -/
def fit_to_size (log : List Message) (character_limit : Nat) : List Message :=
  (fit_scan character_limit 0 log.reverse).reverse

/-- The `"\n".join(f"{msg['role']}: {msg['content']}" ...)` text sent to
the completion service by `create_summary`. -/
def full_chat (msgs : List Message) : String :=
  String.intercalate "\n" (msgs.map fun msg => msg.role ++ ": " ++ msg.content)

/-- `create_summary(messages_to_summarize)`: empty input short-circuits to
a sentinel; otherwise the service is called on the formatted chat and a
raised error is caught and embedded into a fallback string. -/
def create_summary (svc : String → Except String String) (msgs : List Message) : String :=
  if msgs = [] then "Nothing to summarize yet."
  else
    match svc (full_chat msgs) with
    | .ok summary_text => summary_text
    | .error err => "Couldn't create summary: " ++ err

/-- `check_and_compress(after_n_messages)`: below the threshold, a no-op;
otherwise summarizes the entire current log, replaces it with a single
synthetic system message, stores the summary and resets the counter.
The threshold is an `Int` since Python callers may pass any integer. -/
def check_and_compress (svc : String → Except String String) (now : String)
    (after_n_messages : Int) (st : HandlerState) : HandlerState :=
  if (st.message_count : Int) < after_n_messages then st
  else
    let s := create_summary svc st.chat_log
    { chat_log := [⟨"system", "Context from earlier: " ++ s, now⟩]
      message_count := 0
      last_summary := s }

/-- The metrics dictionary returned by `get_chat_metrics`. -/
structure Metrics where
  total_messages : Nat
  total_characters : Nat
  total_words : Nat
  turns : Nat
  deriving DecidableEq, Repr

/-- `len(s.split())` for Python's no-argument `split`: the number of
maximal non-whitespace runs, counted by a single left fold over the
characters (the Bool tracks being inside a run). -/
def py_word_count (s : String) : Nat :=
  (s.toList.foldl
    (fun (acc : Nat × Bool) c =>
      if c.isWhitespace then (acc.1, false)
      else if acc.2 then acc else (acc.1 + 1, true))
    (0, false)).1

/-- `get_chat_metrics()`: message count, summed content lengths, summed
whitespace-token counts, and `len // 2` turns. -/
def get_chat_metrics (log : List Message) : Metrics :=
  { total_messages := log.length
    total_characters := (log.map fun m => m.content.length).sum
    total_words := (log.map fun m => py_word_count m.content).sum
    turns := log.length / 2 }

/-- A JSON-decoded Python value as they occur in extracted profiles:
`None`, a string, or an integer. -/
inductive PyVal where
  | null
  | str (s : String)
  | int (n : Int)
  deriving DecidableEq, Repr

/-- An extracted profile: a Python dict modelled as an association list
with unique keys in insertion order. -/
abbrev Profile := List (String × PyVal)

/-- Python dict assignment `d[k] = v`: replaces the value at `k` in place
(keeping insertion order), appending the key when absent. -/
def dict_set (k : String) (v : PyVal) : Profile → Profile
  | [] => [(k, v)]
  | (k', v') :: rest => if k' = k then (k, v) :: rest else (k', v') :: dict_set k v rest

/-- Decimal value of a digit list (helper for `py_int_of_string`). -/
def py_digits_to_nat (cs : List Char) : Nat :=
  cs.foldl (fun acc c => 10 * acc + (c.toNat - 48)) 0

/-- Python's `int(s)` on a string: surrounding whitespace is stripped, an
optional sign is read, and the rest must be digits optionally grouped by
single interior underscores; anything else raises `ValueError` (`none`
here). ASCII digits only. -/
def py_int_of_string (s : String) : Option Int :=
  let trimmed := ((s.toList.dropWhile Char.isWhitespace).reverse.dropWhile
    Char.isWhitespace).reverse
  let signBody : Int × List Char :=
    match trimmed with
    | '-' :: rest => (-1, rest)
    | '+' :: rest => (1, rest)
    | cs => (1, cs)
  let cs := signBody.2
  if cs.head? == some '_' || cs.getLast? == some '_' ||
      ((cs.zip cs.tail).any fun p => p.1 == '_' && p.2 == '_') then none
  else
    let digits := cs.filter fun c => c != '_'
    if !digits.isEmpty && digits.all Char.isDigit then
      some (signBody.1 * (py_digits_to_nat digits : Nat))
    else none

/-- The age-normalization block of `mine_conversation`, applied to the
parsed JSON object: empty-string or `None` age becomes `None`; a string
age is converted with `int(...)`, falling back to `None` on
`ValueError`; any other value is left alone. -/
def normalize_age (found_info : Profile) : Profile :=
  match found_info.lookup "age" with
  | some v =>
    if v = PyVal.str "" ∨ v = PyVal.null then dict_set "age" PyVal.null found_info
    else
      match v with
      | PyVal.str s =>
        match py_int_of_string s with
        | some n => dict_set "age" (PyVal.int n) found_info
        | none => dict_set "age" PyVal.null found_info
      | _ => found_info
  | none => found_info

/-- `mine_conversation(raw_chat)`: the service call plus `json.loads` is
the explicit `service_result` parameter; on success the parsed object is
age-normalized, and any exception in the `try` block yields `{}`. -/
def mine_conversation (service_result : Except String Profile) : Profile :=
  match service_result with
  | .ok found_info => normalize_age found_info
  | .error _ => []

/-- The quality report dict built by `check_quality`. -/
structure Report where
  is_valid : Bool
  errors : List String
  warnings : List String
  extracted_fields : List String
  deriving DecidableEq, Repr

/-- Python truthiness of a profile value (`if extracted_info[k]:`). -/
def py_truthy : PyVal → Bool
  | PyVal.null => false
  | PyVal.str s => s != ""
  | PyVal.int n => n != 0

/-- Python `v not in [None, ""]` (the `extracted_fields` filter): unlike
truthiness, the integer 0 passes. -/
def not_none_or_empty : PyVal → Bool
  | PyVal.null => false
  | PyVal.str s => s != ""
  | PyVal.int _ => true

/-- The email rule of `check_quality`: a present truthy email missing
`"@"` or `"."` warns; `"@" not in x` on a non-string raises `TypeError`
(`error` here). -/
def email_check (extracted_info : Profile) : Except Unit (List String) :=
  match extracted_info.lookup "email" with
  | some v =>
    if py_truthy v then
      match v with
      | PyVal.str s =>
        if !(s.toList.contains '@') || !(s.toList.contains '.') then
          .ok ["Email looks suspicious"]
        else .ok []
      | _ => .error ()
    else .ok []
  | none => .ok []

/-- The age rule of `check_quality`: a present truthy age that is not an
integer, or is outside [0, 150], warns (`isinstance` is checked first,
so a string age warns without a comparison fault). -/
def age_check (extracted_info : Profile) : List String :=
  match extracted_info.lookup "age" with
  | some v =>
    if py_truthy v then
      match v with
      | PyVal.int n => if n < 0 ∨ 150 < n then ["Age seems off"] else []
      | _ => ["Age seems off"]
    else []
  | none => []

/-- The phone rule of `check_quality`: strip non-digits (`re.sub` on a
non-string raises `TypeError`); fewer than 7 or more than 15 digits
warns. ASCII digits only. -/
def phone_check (extracted_info : Profile) : Except Unit (List String) :=
  match extracted_info.lookup "phone" with
  | some v =>
    if py_truthy v then
      match v with
      | PyVal.str s =>
        let digits_only := s.toList.filter Char.isDigit
        if digits_only.length < 7 ∨ 15 < digits_only.length then
          .ok ["Phone number length unusual"]
        else .ok []
      | _ => .error ()
    else .ok []
  | none => .ok []

/-- `check_quality(extracted_info)`: builds the report with `is_valid`
fixed to `True`, empty `errors`, `extracted_fields` from the filter, and
runs the three rules in order, collecting warnings. -/
def check_quality (extracted_info : Profile) : Except Unit Report :=
  match email_check extracted_info with
  | .error e => .error e
  | .ok w1 =>
    let w2 := age_check extracted_info
    match phone_check extracted_info with
    | .error e => .error e
    | .ok w3 =>
      .ok { is_valid := true
            errors := []
            warnings := w1 ++ w2 ++ w3
            extracted_fields :=
              (extracted_info.filter fun kv => not_none_or_empty kv.2).map Prod.fst }

/-! Helper definitions and lemmas shared by the claim theorems. -/

/-- Total content length of a log, by structural recursion (the spec's
"sum of content lengths"). -/
def sum_content : List Message → Nat
  | [] => 0
  | m :: rest => m.content.length + sum_content rest

/-- Total whitespace-token count of a log, by structural recursion (the
spec's "sum of whitespace-delimited token counts per Turn"). -/
def sum_words : List Message → Nat
  | [] => 0
  | m :: rest => py_word_count m.content + sum_words rest

lemma sum_content_append (l1 l2 : List Message) :
    sum_content (l1 ++ l2) = sum_content l1 + sum_content l2 := by
  induction l1 with
  | nil => simp [sum_content]
  | cons m rest ih => simp [sum_content, ih]; ring

lemma sum_content_reverse (l : List Message) : sum_content l.reverse = sum_content l := by
  induction l with
  | nil => rfl
  | cons m rest ih =>
    simp [List.reverse_cons, sum_content_append, ih, sum_content]; ring

lemma sum_content_eq_map_sum (l : List Message) :
    sum_content l = (l.map fun m => m.content.length).sum := by
  induction l with
  | nil => rfl
  | cons m rest ih => simp [sum_content, ih]

lemma sum_words_eq_map_sum (l : List Message) :
    sum_words l = (l.map fun m => py_word_count m.content).sum := by
  induction l with
  | nil => rfl
  | cons m rest ih => simp [sum_words, ih]

lemma length_pos_of_ne_empty (s : String) (h : s ≠ "") : 0 < s.length := by
  cases hz : s.length with
  | zero => exact absurd (String.ext (List.length_eq_zero.mp hz)) h
  | succ n => omega

lemma fit_scan_sum_le (limit : Nat) :
    ∀ (xs : List Message) (used : Nat), used ≤ limit →
      used + sum_content (fit_scan limit used xs) ≤ limit := by
  intro xs
  induction xs with
  | nil => intro used h; simpa [fit_scan, sum_content] using h
  | cons m rest ih =>
    intro used h
    by_cases hb : limit < used + m.content.length
    · simpa [fit_scan, hb, sum_content] using h
    · have := ih (used + m.content.length) (by omega)
      simp only [fit_scan, hb, if_neg hb, sum_content]
      omega

lemma fit_scan_all (limit : Nat) :
    ∀ (xs : List Message) (used : Nat), used + sum_content xs ≤ limit →
      fit_scan limit used xs = xs := by
  intro xs
  induction xs with
  | nil => intro used _; rfl
  | cons m rest ih =>
    intro used h
    simp only [sum_content] at h
    have hb : ¬ limit < used + m.content.length := by omega
    simp only [fit_scan]
    rw [if_neg hb, ih (used + m.content.length) (by omega)]

/-! Claim theorems. -/

/-- C1 counterexample: with a threshold of 1 already reached and a
summarization service that raises, `check_and_compress` does NOT leave
`chat_log` and `message_count` unchanged — refuting the claim at this
concrete input. -/
theorem C1_counterexample :
    ¬ ((check_and_compress (fun _ => Except.error "service down") "t1" 1
          ⟨[⟨"user", "hi", "t0"⟩], 1, ""⟩).chat_log = [⟨"user", "hi", "t0"⟩]
        ∧ (check_and_compress (fun _ => Except.error "service down") "t1" 1
          ⟨[⟨"user", "hi", "t0"⟩], 1, ""⟩).message_count = 1) := by
  decide

/-- C1 (amended): when the threshold is reached on a non-empty log and
the summarization service raises, `create_summary` swallows the error
into the fallback text, and `check_and_compress` still compresses: the
log becomes one system message embedding that fallback text,
`message_count` resets to 0, and the fallback text is stored as the
summary. -/
theorem C1_failed_summary_still_compresses
    (svc : String → Except String String) (now : String) (after_n : Int)
    (st : HandlerState) (err : String)
    (hthresh : after_n ≤ (st.message_count : Int))
    (hne : st.chat_log ≠ [])
    (hsvc : svc (full_chat st.chat_log) = Except.error err) :
    check_and_compress svc now after_n st =
      ⟨[⟨"system", "Context from earlier: " ++ ("Couldn't create summary: " ++ err), now⟩],
        0, "Couldn't create summary: " ++ err⟩ := by
  unfold check_and_compress
  rw [if_neg (by omega)]
  unfold create_summary
  rw [if_neg hne, hsvc]

/-- C1 witness: the amended theorem applied at a concrete state, service
failure and threshold. -/
theorem C1_failed_summary_still_compresses_witness :
    check_and_compress (fun _ => Except.error "boom") "t1" 1
        ⟨[⟨"user", "hi", "t0"⟩], 1, ""⟩ =
      ⟨[⟨"system", "Context from earlier: " ++ ("Couldn't create summary: " ++ "boom"), "t1"⟩],
        0, "Couldn't create summary: " ++ "boom"⟩ :=
  C1_failed_summary_still_compresses (fun _ => Except.error "boom") "t1" 1
    ⟨[⟨"user", "hi", "t0"⟩], 1, ""⟩ "boom" (by decide) (by decide) rfl

/-- C2: evaluation of `keep_recent_turns` at the failing input: asked for
the last 0 turns of a one-message log, the code returns the whole log
(the Python slice `chat_log[-0:]`), violating the claimed bound
`|result| ≤ min(|L|, 2k)` = 0. -/
theorem C2_keep_recent_turns_zero_eval :
    keep_recent_turns [⟨"user", "hi", "t0"⟩] 0 = [⟨"user", "hi", "t0"⟩]
    ∧ ¬ ((keep_recent_turns [⟨"user", "hi", "t0"⟩] 0).length ≤
          min ([(⟨"user", "hi", "t0"⟩ : Message)] : List Message).length (2 * 0)) := by
  decide

/-- C3 counterexample: a log whose single (newest) message has empty
content is returned whole by `fit_to_size` under budget 0, so "with
m = 0 the result is empty" fails as stated. -/
theorem C3_counterexample :
    fit_to_size [⟨"user", "", "t0"⟩] 0 ≠ [] := by
  decide

/-- C3 (amended): the selection of `fit_to_size` never exceeds the
character budget; with budget 0 it is empty provided every message has
non-empty content; with a budget at least the total content length it
returns the whole log in order; and a newest message alone exceeding the
budget forces an empty result. -/
theorem C3_fit_to_size_spec (L : List Message) (m : Nat) :
    sum_content (fit_to_size L m) ≤ m
    ∧ ((∀ msg ∈ L, msg.content ≠ "") → fit_to_size L 0 = [])
    ∧ (sum_content L ≤ m → fit_to_size L m = L)
    ∧ (∀ last, L.getLast? = some last → m < last.content.length → fit_to_size L m = []) := by
  refine ⟨?_, ?_, ?_, ?_⟩
  · have h := fit_scan_sum_le m L.reverse 0 (Nat.zero_le m)
    unfold fit_to_size
    rw [sum_content_reverse]
    omega
  · intro hne
    unfold fit_to_size
    cases hrev : L.reverse with
    | nil => rfl
    | cons x rest =>
      have hx : x ∈ L := by
        have : x ∈ L.reverse := by rw [hrev]; exact List.mem_cons_self x rest
        exact List.mem_reverse.mp this
      have hlen : 0 < x.content.length := length_pos_of_ne_empty x.content (hne x hx)
      rw [fit_scan]
      rw [if_pos (by omega)]
      rfl
  · intro hle
    unfold fit_to_size
    rw [fit_scan_all m L.reverse 0 (by rw [sum_content_reverse]; omega)]
    exact List.reverse_reverse L
  · intro last hlast hgt
    unfold fit_to_size
    have hrev : L.reverse.head? = some last := by
      rw [List.head?_reverse]; exact hlast
    cases hrevL : L.reverse with
    | nil => rw [hrevL] at hrev; simp at hrev
    | cons x rest =>
      rw [hrevL] at hrev
      simp only [List.head?_cons, Option.some.injEq] at hrev
      subst hrev
      rw [fit_scan]
      rw [if_pos (by omega)]
      rfl

/-- C3 witness: the amended theorem applied at concrete logs and budgets,
discharging each hypothesis. -/
theorem C3_fit_to_size_spec_witness :
    fit_to_size [⟨"user", "abc", "t0"⟩] 0 = []
    ∧ fit_to_size [⟨"user", "ab", "t0"⟩, ⟨"assistant", "cd", "t1"⟩] 4 =
        [⟨"user", "ab", "t0"⟩, ⟨"assistant", "cd", "t1"⟩]
    ∧ fit_to_size [⟨"user", "ab", "t0"⟩, ⟨"assistant", "cd", "t1"⟩] 1 = [] :=
  ⟨(C3_fit_to_size_spec [⟨"user", "abc", "t0"⟩] 0).2.1 (by decide),
    (C3_fit_to_size_spec [⟨"user", "ab", "t0"⟩, ⟨"assistant", "cd", "t1"⟩] 4).2.2.1 (by decide),
    (C3_fit_to_size_spec [⟨"user", "ab", "t0"⟩, ⟨"assistant", "cd", "t1"⟩] 1).2.2.2
      ⟨"assistant", "cd", "t1"⟩ (by decide) (by decide)⟩

/-- C4 counterexample: with threshold 0 (an allowed integer threshold)
and an echoing summarization service, the second of two successive
`check_and_compress` calls re-compresses and changes the log, so the
claim fails for "every threshold". -/
theorem C4_counterexample :
    check_and_compress (fun s => Except.ok s) "t" 0
        (check_and_compress (fun s => Except.ok s) "t" 0 ⟨[], 0, ""⟩)
      ≠ check_and_compress (fun s => Except.ok s) "t" 0 ⟨[], 0, ""⟩ := by
  decide

/-- C4 (amended): for every positive threshold, calling
`check_and_compress` twice in succession with the same threshold (and
service) leaves the state unchanged on the second call. -/
theorem C4_idempotent_for_positive_threshold
    (svc : String → Except String String) (now1 now2 : String)
    (t : Int) (st : HandlerState) (ht : 1 ≤ t) :
    check_and_compress svc now2 t (check_and_compress svc now1 t st)
      = check_and_compress svc now1 t st := by
  by_cases hc : (st.message_count : Int) < t
  · have h1 : check_and_compress svc now1 t st = st := by
      unfold check_and_compress; rw [if_pos hc]
    rw [h1]
    unfold check_and_compress; rw [if_pos hc]
  · have h1 : check_and_compress svc now1 t st =
        ⟨[⟨"system", "Context from earlier: " ++ create_summary svc st.chat_log, now1⟩],
          0, create_summary svc st.chat_log⟩ := by
      unfold check_and_compress; rw [if_neg hc]
    rw [h1]
    unfold check_and_compress
    split
    · rfl
    · next h => exfalso; simp at h; omega

/-- C4 witness: the amended idempotence applied at a concrete service,
threshold and state. -/
theorem C4_idempotent_for_positive_threshold_witness :
    check_and_compress (fun _ => Except.ok "S") "t2" 1
        (check_and_compress (fun _ => Except.ok "S") "t1" 1 ⟨[⟨"user", "hi", "t0"⟩], 1, ""⟩)
      = check_and_compress (fun _ => Except.ok "S") "t1" 1 ⟨[⟨"user", "hi", "t0"⟩], 1, ""⟩ :=
  C4_idempotent_for_positive_threshold (fun _ => Except.ok "S") "t1" "t2" 1
    ⟨[⟨"user", "hi", "t0"⟩], 1, ""⟩ (by decide)

/-- C5: when `message_count` has reached the threshold and the
summarization service succeeds with text `S` on the formatted log, after
`check_and_compress` the log is exactly one system message with content
`"Context from earlier: " ++ S`, the counter is reset to 0, and the
stored summary equals `S`. -/
theorem C5_compression_postcondition
    (svc : String → Except String String) (now : String) (after_n : Int)
    (st : HandlerState) (S : String)
    (hthresh : after_n ≤ (st.message_count : Int))
    (hne : st.chat_log ≠ [])
    (hsvc : svc (full_chat st.chat_log) = Except.ok S) :
    check_and_compress svc now after_n st =
      ⟨[⟨"system", "Context from earlier: " ++ S, now⟩], 0, S⟩ := by
  unfold check_and_compress
  rw [if_neg (by omega)]
  unfold create_summary
  rw [if_neg hne, hsvc]

/-- C5 witness: the theorem applied at a concrete state, threshold and
stubbed service. -/
theorem C5_compression_postcondition_witness :
    check_and_compress (fun _ => Except.ok "S") "t2" 2
        ⟨[⟨"user", "hi", "t0"⟩, ⟨"assistant", "hello", "t1"⟩], 2, ""⟩ =
      ⟨[⟨"system", "Context from earlier: " ++ "S", "t2"⟩], 0, "S"⟩ :=
  C5_compression_postcondition (fun _ => Except.ok "S") "t2" 2
    ⟨[⟨"user", "hi", "t0"⟩, ⟨"assistant", "hello", "t1"⟩], 2, ""⟩ "S"
    (by decide) (by decide) rfl

lemma lookup_dict_set (k : String) (v : PyVal) (l : Profile) :
    (dict_set k v l).lookup k = some v := by
  induction l with
  | nil => simp [dict_set, List.lookup]
  | cons kv rest ih =>
    obtain ⟨k', v'⟩ := kv
    by_cases hk : k' = k
    · subst hk; simp [dict_set, List.lookup]
    · have hne : (k == k') = false := beq_eq_false_iff_ne.mpr (Ne.symm hk)
      simp [dict_set, hk, List.lookup, hne, ih]

lemma check_quality_ok_fields (info : Profile) (report : Report)
    (h : check_quality info = Except.ok report) :
    report.is_valid = true ∧ report.errors = [] := by
  unfold check_quality at h
  cases hemail : email_check info <;> rw [hemail] at h
  · exact Except.noConfusion h
  · cases hphone : phone_check info <;> rw [hphone] at h
    · simp only [] at h
      exact Except.noConfusion h
    · simp only [Except.ok.injEq] at h
      rw [← h]
      exact ⟨rfl, rfl⟩

/-- C6: whenever `check_quality` returns a report, its `is_valid` field
is true (the validator is advisory-only), and on the profile
`{"email": "bad-email", "age": 200, "phone": "123"}` it returns exactly
the three warnings for email, age and phone with `is_valid` still
true. -/
theorem C6_validator_never_invalidates :
    (∀ (info : Profile) (report : Report),
        check_quality info = Except.ok report → report.is_valid = true)
    ∧ check_quality
        [("email", PyVal.str "bad-email"), ("age", PyVal.int 200), ("phone", PyVal.str "123")]
      = Except.ok ⟨true, [],
          ["Email looks suspicious", "Age seems off", "Phone number length unusual"],
          ["email", "age", "phone"]⟩ := by
  constructor
  · intro info report h
    exact (check_quality_ok_fields info report h).1
  · rfl

/-- C6 witness: the universal part applied to the concrete bad profile,
whose report evaluates by reduction. -/
theorem C6_validator_never_invalidates_witness :
    ({ is_valid := true, errors := [],
       warnings := ["Email looks suspicious", "Age seems off", "Phone number length unusual"],
       extracted_fields := ["email", "age", "phone"] } : Report).is_valid = true :=
  C6_validator_never_invalidates.1
    [("email", PyVal.str "bad-email"), ("age", PyVal.int 200), ("phone", PyVal.str "123")]
    ⟨true, [], ["Email looks suspicious", "Age seems off", "Phone number length unusual"],
      ["email", "age", "phone"]⟩ rfl

/-- C7: age normalization in `mine_conversation`: a null or empty-string
age becomes null; a string numeral becomes the corresponding integer; a
string that fails integer conversion becomes null (no fault reaches the
caller); an integer age leaves the parsed object untouched. -/
theorem C7_age_normalization (info : Profile) :
    ((info.lookup "age" = some PyVal.null ∨ info.lookup "age" = some (PyVal.str "")) →
        (mine_conversation (Except.ok info)).lookup "age" = some PyVal.null)
    ∧ (∀ s n, info.lookup "age" = some (PyVal.str s) → py_int_of_string s = some n →
        (mine_conversation (Except.ok info)).lookup "age" = some (PyVal.int n))
    ∧ (∀ s, info.lookup "age" = some (PyVal.str s) → py_int_of_string s = none →
        (mine_conversation (Except.ok info)).lookup "age" = some PyVal.null)
    ∧ (∀ n, info.lookup "age" = some (PyVal.int n) →
        mine_conversation (Except.ok info) = info) := by
  refine ⟨?_, ?_, ?_, ?_⟩
  · rintro (h | h) <;> simp [mine_conversation, normalize_age, h, lookup_dict_set]
  · intro s n h hs
    have hse : s ≠ "" := by
      intro he
      subst he
      have hnone : py_int_of_string "" = none := by decide
      rw [hnone] at hs
      exact Option.noConfusion hs
    simp [mine_conversation, normalize_age, h, hse, hs, lookup_dict_set]
  · intro s h hs
    by_cases hse : s = ""
    · subst hse
      simp [mine_conversation, normalize_age, h, lookup_dict_set]
    · simp [mine_conversation, normalize_age, h, hse, hs, lookup_dict_set]
  · intro n h
    simp [mine_conversation, normalize_age, h]

/-- C7 witness: the four normalization cases at concrete parsed
objects. -/
theorem C7_age_normalization_witness :
    (mine_conversation (Except.ok [("age", PyVal.null)])).lookup "age" = some PyVal.null
    ∧ (mine_conversation (Except.ok [("age", PyVal.str "28")])).lookup "age"
        = some (PyVal.int 28)
    ∧ (mine_conversation (Except.ok [("age", PyVal.str "abc")])).lookup "age"
        = some PyVal.null
    ∧ mine_conversation (Except.ok [("age", PyVal.int 28)]) = [("age", PyVal.int 28)] :=
  ⟨(C7_age_normalization [("age", PyVal.null)]).1 (Or.inl (by decide)),
    (C7_age_normalization [("age", PyVal.str "28")]).2.1 "28" 28 (by decide) (by decide),
    (C7_age_normalization [("age", PyVal.str "abc")]).2.2.1 "abc" (by decide) (by decide),
    (C7_age_normalization [("age", PyVal.int 28)]).2.2.2 28 (by decide)⟩

/-- C8: `get_chat_metrics` reports the message count, the summed content
lengths, the summed whitespace-token counts, and `length // 2` turns
(so an odd message count under-reports by one half-turn); on the empty
log all four metrics are 0. -/
theorem C8_chat_metrics (log : List Message) :
    (get_chat_metrics log).total_messages = log.length
    ∧ (get_chat_metrics log).total_characters = sum_content log
    ∧ (get_chat_metrics log).total_words = sum_words log
    ∧ (get_chat_metrics log).turns = log.length / 2
    ∧ 2 * (get_chat_metrics log).turns ≤ (get_chat_metrics log).total_messages
    ∧ (get_chat_metrics log).total_messages ≤ 2 * (get_chat_metrics log).turns + 1
    ∧ get_chat_metrics ([] : List Message) = ⟨0, 0, 0, 0⟩ := by
  refine ⟨rfl, ?_, ?_, rfl, ?_, ?_, rfl⟩
  · exact (sum_content_eq_map_sum log).symm
  · exact (sum_words_eq_map_sum log).symm
  · show 2 * (log.length / 2) ≤ log.length
    omega
  · show log.length ≤ 2 * (log.length / 2) + 1
    omega

/-- C9: on any service or parse failure `mine_conversation` returns the
empty profile, and `check_quality` of the empty profile is a report with
`is_valid = true`, no warnings and no extracted fields. -/
theorem C9_empty_profile_validation :
    (∀ err : String, mine_conversation (Except.error err) = ([] : Profile))
    ∧ check_quality ([] : Profile) = Except.ok ⟨true, [], [], []⟩ :=
  ⟨fun _ => rfl, rfl⟩

/-- C10: no rule of `check_quality` ever appends to `errors`: every
report it returns has an empty `errors` list. -/
theorem C10_errors_always_empty (info : Profile) (report : Report)
    (h : check_quality info = Except.ok report) : report.errors = [] :=
  (check_quality_ok_fields info report h).2

/-- C10 witness: the theorem applied to a concrete profile whose report
evaluates by reduction. -/
theorem C10_errors_always_empty_witness :
    ({ is_valid := true, errors := [], warnings := ["Email looks suspicious"],
       extracted_fields := ["email"] } : Report).errors = [] :=
  C10_errors_always_empty [("email", PyVal.str "bad")]
    ⟨true, [], ["Email looks suspicious"], ["email"]⟩ rfl

end ConversationM
